import Mathlib

/-!
Verification of the spice-source-hub marketplace front-end.

The repository is a React front-end over a hosted relational backend
(supabase).  Every operation the claims mention is a query or a small
read-modify-write against the tables `materials`, `group_orders`,
`group_order_participants`, `orders` and `cart_items`.  We embed those
tables as Lean lists of records and each handler as a pure function from
the relevant table states to new table states, translated directly from
the TypeScript in `src/pages/VendorDashboard.tsx`,
`src/pages/SupplierDashboard.tsx`, `src/pages/Analytics.tsx`,
`src/components/GroupOrderModal.tsx` and `src/components/Cart.tsx`.

JavaScript numbers are modelled as rationals (ℚ); timestamps as rational
milliseconds since the epoch (the code compares ISO strings, which is
order-isomorphic to comparing the underlying instants).  Values that the
database assigns on insert (row ids, the `status` default) are passed in
as explicit parameters, since the SQL schema is not part of the sources.
`Math.random()` draws in `Analytics.tsx` are modelled as an explicit
stream `ℕ → ℚ` consumed left to right, two draws per material.
-/

namespace SpiceSourceHub

/-- Milliseconds in a day, as used by `GroupOrderModal.tsx` for the expiry
preview (`Date.now() + formData.expiryDays * 24 * 60 * 60 * 1000`); we use
the same arithmetic for `expiryDate.setDate(getDate() + expiryDays)`,
i.e. calendar-day addition is modelled as adding whole days. -/
def msPerDay : ℚ := 86400000

/-- A catalog item, from the `Material` interface in
`VendorDashboard.tsx` / `SupplierDashboard.tsx` and the `materials` table
of `integrations/supabase/types.ts`. -/
structure Material where
  id : String
  name : String
  description : String
  price : ℚ
  stock : ℚ
  unit : String
  supplier_id : String
deriving DecidableEq

/-- A `group_orders` row, from the `GroupOrder` interface in
`VendorDashboard.tsx` and the `group_orders` table of
`integrations/supabase/types.ts`. -/
structure GroupOrder where
  id : String
  material_id : String
  total_quantity : ℚ
  current_price : ℚ
  min_quantity : ℚ
  participants : List String
  expires_at : ℚ
  status : String
deriving DecidableEq

/-- A `group_order_participants` row, as inserted by the second
`joinGroupOrder` variant in `VendorDashboard.tsx`. -/
structure GroupOrderParticipant where
  group_order_id : String
  vendor_id : String
  quantity : ℚ
deriving DecidableEq

/-- An `orders` row, from the `Order` interface in
`SupplierDashboard.tsx` and the `orders` table of
`integrations/supabase/types.ts`. -/
structure Order where
  id : String
  vendor_id : String
  supplier_id : String
  material_id : String
  quantity : ℚ
  status : String
  type : String
  total_price : ℚ
  created_at : ℚ
deriving DecidableEq

/-- A `cart_items` row, from the `CartItem` interface in
`components/Cart.tsx` and the `addToCart` insert in
`VendorDashboard.tsx`. -/
structure CartItem where
  id : String
  vendor_id : String
  material_id : String
  quantity : ℚ
deriving DecidableEq

/-- The group-order form state of `GroupOrderModal.tsx` (lines 38-43). -/
structure GroupOrderForm where
  minQuantity : ℚ
  discountedPrice : ℚ
  expiryDays : ℚ
  description : String
deriving DecidableEq

/-- The form defaults of `GroupOrderModal.tsx`: `minQuantity: 100`,
`discountedPrice: material.price * 0.9` (initialiser at line 40 and the
effect at lines 86-93), `expiryDays: 7`. -/
def initialGroupOrderForm (m : Material) : GroupOrderForm :=
  { minQuantity := 100
    discountedPrice := m.price * (9 / 10)
    expiryDays := 7
    description := "" }

/-- The row built by `createGroupOrder` in `GroupOrderModal.tsx`
(lines 45-83): `material_id`, `min_quantity`, `current_price`,
`expires_at = now + expiryDays days`, `participants: [user.id]`,
`total_quantity: 1`.  `newId` and `dbStatus` are the database-assigned id
and status default, which the insert does not set. -/
def createGroupOrderRow (m : Material) (f : GroupOrderForm) (uid : String)
    (now : ℚ) (newId dbStatus : String) : GroupOrder :=
  { id := newId
    material_id := m.id
    total_quantity := 1
    current_price := f.discountedPrice
    min_quantity := f.minQuantity
    participants := [uid]
    expires_at := now + f.expiryDays * msPerDay
    status := dbStatus }

/-- Effect of `createGroupOrder` on the `group_orders` table: a single
insert. -/
def createGroupOrder (db : List GroupOrder) (m : Material)
    (f : GroupOrderForm) (uid : String) (now : ℚ)
    (newId dbStatus : String) : List GroupOrder :=
  db ++ [createGroupOrderRow m f uid now newId dbStatus]

/-- `fetchGroupOrders` in `VendorDashboard.tsx`: select from
`group_orders` with `.eq("status", "open")` and
`.gt("expires_at", new Date().toISOString())`. -/
def fetchGroupOrders (db : List GroupOrder) (now : ℚ) : List GroupOrder :=
  db.filter (fun go => go.status == "open" && decide (now < go.expires_at))

/-- The vendor-side database state touched by the join flow. -/
structure VendorDb where
  group_orders : List GroupOrder
  group_order_participants : List GroupOrderParticipant
deriving DecidableEq

/-- The `group_orders` update written by `joinGroupOrder`: on the row with
the joined id, overwrite `participants` and `total_quantity` with the
values `ps` and `t` computed from the fetched snapshot; leave every other
row unchanged. -/
def joinUpdate (goId : String) (ps : List String) (t : ℚ)
    (r : GroupOrder) : GroupOrder :=
  if r.id == goId then { r with participants := ps, total_quantity := t }
  else r

/-- `joinGroupOrder` in `VendorDashboard.tsx` (second variant,
lines 559-612; the first variant is the special case `q = 1` without the
side-table insert), run against an explicit fetched snapshot: look the
group order up in the fetched list, return unchanged if absent or if the
user is already a participant, otherwise insert a
`group_order_participants` row and overwrite the row's `participants` and
`total_quantity` with values computed from the snapshot. -/
def joinGroupOrderFromSnapshot (snapshot : List GroupOrder) (db : VendorDb)
    (goId uid : String) (q : ℚ) : VendorDb :=
  match snapshot.find? (fun go => go.id == goId) with
  | none => db
  | some go =>
    if go.participants.contains uid then db
    else
      { group_orders := db.group_orders.map
          (joinUpdate goId (go.participants ++ [uid]) (go.total_quantity + q))
        group_order_participants := db.group_order_participants ++
          [{ group_order_id := goId, vendor_id := uid, quantity := q }] }

/-- The join flow with an up-to-date snapshot: the component state is the
result of `fetchGroupOrders` on the current table. -/
def joinGroupOrder (db : VendorDb) (now : ℚ) (goId uid : String)
    (q : ℚ) : VendorDb :=
  joinGroupOrderFromSnapshot (fetchGroupOrders db.group_orders now) db goId uid q

/-- The unit price the vendor dashboard associates with a group order:
its `current_price` column (the price badge and the join card in
`VendorDashboard.tsx` display `groupOrder.current_price`; no other price
is attached to a group order anywhere in the sources). -/
def groupOrderUnitPrice (go : GroupOrder) : ℚ :=
  go.current_price

/-- The pricing rule claim C1 ascribes to the code: while pooled demand
is below the threshold, participants are charged the material's regular
price. -/
def chargesRegularBelowThreshold (go : GroupOrder) (regularPrice : ℚ) : Prop :=
  go.total_quantity < go.min_quantity → groupOrderUnitPrice go = regularPrice

/-- `placeIndividualOrder` in `VendorDashboard.tsx` (both variants insert
the same `orders` row): find the material in the fetched catalog, then
insert `vendor_id`, `supplier_id`, `material_id`, `quantity`,
`total_price = price * quantity`, `type: "individual"`. -/
def placeIndividualOrder (materials : List Material) (uid matId : String)
    (q : ℚ) (db : List Order) (newId dbStatus : String) (now : ℚ) :
    List Order :=
  match materials.find? (fun m => m.id == matId) with
  | none => db
  | some m =>
    db ++ [{ id := newId
             vendor_id := uid
             supplier_id := m.supplier_id
             material_id := matId
             quantity := q
             status := dbStatus
             type := "individual"
             total_price := m.price * q
             created_at := now }]

/-- `fetchMaterials` in `SupplierDashboard.tsx`: select from `materials`
with `.eq("supplier_id", user.id)`. -/
def fetchSupplierMaterials (db : List Material) (uid : String) :
    List Material :=
  db.filter (fun m => m.supplier_id == uid)

/-- `fetchOrders` in `SupplierDashboard.tsx`: select from `orders` with
`.eq("supplier_id", user.id)`, ordered by `created_at` descending. -/
def fetchSupplierOrders (db : List Order) (uid : String) : List Order :=
  (db.filter (fun o => o.supplier_id == uid)).mergeSort
    (fun a b => decide (b.created_at ≤ a.created_at))

/-- `updateOrderStatus` in `SupplierDashboard.tsx` (lines 146-169): set
`status` on the row with the given id. -/
def updateOrderStatus (db : List Order) (orderId newStatus : String) :
    List Order :=
  db.map (fun o => if o.id == orderId then { o with status := newStatus } else o)

/-- The status buttons the supplier dashboard renders for an order
(JSX at lines 395-422): a pending order offers `confirmed` (Accept) and
`cancelled` (Decline); a confirmed order offers `delivered`
(Mark as Delivered); any other status offers nothing. -/
def availableStatusActions (status : String) : List String :=
  (if status == "pending" then ["confirmed", "cancelled"] else []) ++
  (if status == "confirmed" then ["delivered"] else [])

/-- A dashboard-initiated status update: `updateOrderStatus` can only be
invoked through a rendered button, so the new status must be one of the
actions available for the order's current status. -/
def supplierDashboardUpdateOrderStatus (db : List Order)
    (orderId newStatus : String) : List Order :=
  match db.find? (fun o => o.id == orderId) with
  | none => db
  | some o =>
    if (availableStatusActions o.status).contains newStatus then
      updateOrderStatus db orderId newStatus
    else db

/-- `addToCart` in `VendorDashboard.tsx` (lines 444-490): fetch the cart
row for this vendor and material with `.maybeSingle()` (its error result
is not checked, so both zero and two-or-more matching rows present as a
missing item); if a row with a truthy `quantity` exists, overwrite its
quantity with `existing.quantity + quantity`, otherwise insert a new
row. -/
def addToCart (db : List CartItem) (uid matId : String) (q : ℚ)
    (newId : String) : List CartItem :=
  match db.filter (fun r => r.vendor_id == uid && r.material_id == matId) with
  | [r] =>
    if r.quantity = 0 then
      db ++ [{ id := newId, vendor_id := uid, material_id := matId, quantity := q }]
    else
      db.map (fun s => if s.id == r.id then { s with quantity := r.quantity + q } else s)
  | _ =>
    db ++ [{ id := newId, vendor_id := uid, material_id := matId, quantity := q }]

/-- One entry of the Analytics volatility table, from the
`MaterialVolatility` interface in `Analytics.tsx`. -/
structure MaterialVolatility where
  material_name : String
  volatility : ℚ
  avg_price : ℚ
  price_changes : ℚ
deriving DecidableEq

/-- `Number(x.toFixed(2))` for the nonnegative values produced in
`calculateVolatility`: rounding to two decimals, halves away from
zero. -/
def roundTo2 (x : ℚ) : ℚ :=
  ((⌊x * 100 + 1 / 2⌋ : ℤ) : ℚ) / 100

/-- `calculateVolatility` in `Analytics.tsx` (lines 67-99): for each
fetched material draw `volatility = Math.random() * 20` (rounded to two
decimals) and `price_changes = Math.floor(Math.random() * 10) + 1`, keep
the material's name and price, sort by volatility descending and keep the
top 8.  The random stream `rnd` is consumed two draws per material,
in list order. -/
def calculateVolatility (materials : List Material) (rnd : ℕ → ℚ) :
    List MaterialVolatility :=
  ((materials.enum.map (fun p =>
      { material_name := p.2.name
        volatility := roundTo2 (rnd (2 * p.1) * 20)
        avg_price := p.2.price
        price_changes := ((⌊rnd (2 * p.1 + 1) * 10⌋ : ℤ) : ℚ) + 1
        : MaterialVolatility })).mergeSort
    (fun a b => decide (b.volatility ≤ a.volatility))).take 8

/-- A concrete catalog item used for witnesses and counterexamples. -/
def sampleMaterial : Material :=
  { id := "m1"
    name := "Turmeric"
    description := "ground turmeric"
    price := 100
    stock := 5
    unit := "kg"
    supplier_id := "s1" }

/-- The group order produced by submitting the creation form for
`sampleMaterial` with the default form values, at time 0. -/
def sampleGroupOrder : GroupOrder :=
  createGroupOrderRow sampleMaterial (initialGroupOrderForm sampleMaterial)
    "v1" 0 "g1" "open"

/-- A concrete open, unexpired group order with literal fields, used for
witnesses. -/
def openGroupOrder : GroupOrder :=
  { id := "g2"
    material_id := "m1"
    total_quantity := 3
    current_price := 90
    min_quantity := 100
    participants := ["v1"]
    expires_at := 604800000
    status := "open" }

/-- A concrete delivered order for the C9 witness. -/
def sampleDeliveredOrder : Order :=
  { id := "o1"
    vendor_id := "v1"
    supplier_id := "s1"
    material_id := "m1"
    quantity := 1
    status := "delivered"
    type := "individual"
    total_price := 100
    created_at := 0 }

/-- A concrete cart row with nonzero quantity, for the C10 witness. -/
def sampleCartItem : CartItem :=
  { id := "c1", vendor_id := "v1", material_id := "m1", quantity := 2 }

/-- The cart table after adding material `m1` with quantity 0 to an empty
cart: one row for the pair, with quantity 0. -/
def cartAfterFirstAdd : List CartItem :=
  addToCart [] "v1" "m1" 0 "c1"

/-- The cart table after a second `addToCart` for the same vendor and
material: the zero-quantity row is treated as absent, so a second row for
the same pair is inserted. -/
def cartAfterSecondAdd : List CartItem :=
  addToCart cartAfterFirstAdd "v1" "m1" 5 "c2"

/-- Mapping an elementwise-conditional rewrite over a list does not change
any projection the rewrite preserves. -/
theorem map_map_ite {α β : Type} (l : List α) (c : α → Bool) (f : α → α)
    (g : α → β) (h : ∀ a, g (f a) = g a) :
    (l.map (fun a => if c a then f a else a)).map g = l.map g := by
  induction l with
  | nil => rfl
  | cons x xs ih => by_cases hc : c x <;> simp [hc, h, ih]

/-- C4: forming a group order inserts exactly one `group_orders` row, whose
participants list is exactly the creator, whose total quantity is 1, whose
current price is the discounted price chosen in the form (defaulting to 90%
of the material's regular price), and whose expiry is the chosen number of
days (default 7) after the creation time. -/
theorem createGroupOrder_inserts_single_row :
    ∀ (db : List GroupOrder) (m : Material) (f : GroupOrderForm)
      (uid : String) (now : ℚ) (newId dbStatus : String),
      createGroupOrder db m f uid now newId dbStatus
          = db ++ [createGroupOrderRow m f uid now newId dbStatus]
        ∧ (createGroupOrder db m f uid now newId dbStatus).length = db.length + 1
        ∧ (createGroupOrderRow m f uid now newId dbStatus).participants = [uid]
        ∧ (createGroupOrderRow m f uid now newId dbStatus).total_quantity = 1
        ∧ (createGroupOrderRow m f uid now newId dbStatus).current_price
            = f.discountedPrice
        ∧ (createGroupOrderRow m f uid now newId dbStatus).expires_at
            = now + f.expiryDays * msPerDay
        ∧ (initialGroupOrderForm m).discountedPrice = m.price * (9 / 10)
        ∧ (initialGroupOrderForm m).expiryDays = 7 := by
  intro db m f uid now newId dbStatus
  refine ⟨rfl, ?_, rfl, rfl, rfl, rfl, rfl, rfl⟩
  simp [createGroupOrder]

/-- C1 counterexample: the group order created for `sampleMaterial`
(regular price 100) with the default form is below its threshold
(1 < 100), yet the unit price attached to it is the discounted price 90,
not the regular price: participants are never charged the regular price
below the threshold. -/
theorem below_threshold_price_not_regular :
    sampleGroupOrder.total_quantity < sampleGroupOrder.min_quantity
      ∧ groupOrderUnitPrice sampleGroupOrder = 90
      ∧ sampleMaterial.price = 100
      ∧ ¬ chargesRegularBelowThreshold sampleGroupOrder sampleMaterial.price := by
  have hlt : sampleGroupOrder.total_quantity < sampleGroupOrder.min_quantity := by
    norm_num [sampleGroupOrder, createGroupOrderRow, initialGroupOrderForm,
      sampleMaterial]
  have hne : groupOrderUnitPrice sampleGroupOrder ≠ sampleMaterial.price := by
    norm_num [sampleGroupOrder, createGroupOrderRow, initialGroupOrderForm,
      sampleMaterial, groupOrderUnitPrice]
  refine ⟨hlt, ?_, rfl, fun h => hne (h hlt)⟩
  norm_num [sampleGroupOrder, createGroupOrderRow, initialGroupOrderForm,
    sampleMaterial, groupOrderUnitPrice]

/-- C1 (amended): the discounted unit price is not gated on the threshold.
A group order's unit price is its `current_price`, which is set at
creation to the discounted price chosen in the form and is unchanged by
every join, whatever `total_quantity` and `min_quantity` are; reaching the
minimum quantity never changes the price a participant buys at. -/
theorem group_order_price_independent_of_threshold :
    (∀ (m : Material) (f : GroupOrderForm) (uid : String) (now : ℚ)
        (newId dbStatus : String),
        groupOrderUnitPrice (createGroupOrderRow m f uid now newId dbStatus)
          = f.discountedPrice)
      ∧ (∀ (db : VendorDb) (now : ℚ) (goId uid : String) (q : ℚ),
          (joinGroupOrder db now goId uid q).group_orders.map groupOrderUnitPrice
            = db.group_orders.map groupOrderUnitPrice) := by
  constructor
  · intro m f uid now newId dbStatus
    rfl
  · intro db now goId uid q
    unfold joinGroupOrder joinGroupOrderFromSnapshot
    split
    · rfl
    · split
      · rfl
      · exact map_map_ite db.group_orders _ _ groupOrderUnitPrice (fun a => rfl)

/-- C5: placing an individual order for a material found in the fetched
catalog inserts exactly one `orders` row carrying the vendor's id, the
material's supplier id, the requested quantity, total price
`price * quantity`, and type `individual`. -/
theorem placeIndividualOrder_inserts_single_row :
    ∀ (materials : List Material) (uid matId : String) (q : ℚ)
      (db : List Order) (newId dbStatus : String) (now : ℚ) (m : Material),
      materials.find? (fun x => x.id == matId) = some m →
      placeIndividualOrder materials uid matId q db newId dbStatus now
        = db ++ [{ id := newId
                   vendor_id := uid
                   supplier_id := m.supplier_id
                   material_id := matId
                   quantity := q
                   status := dbStatus
                   type := "individual"
                   total_price := m.price * q
                   created_at := now }] := by
  intro materials uid matId q db newId dbStatus now m hfind
  unfold placeIndividualOrder
  rw [hfind]

/-- C5 witness: placing an order for `sampleMaterial` at quantity 3
appends the expected row to an empty orders table. -/
theorem placeIndividualOrder_witness :
    placeIndividualOrder [sampleMaterial] "v1" "m1" 3 [] "o1" "pending" 50
      = [{ id := "o1"
           vendor_id := "v1"
           supplier_id := sampleMaterial.supplier_id
           material_id := "m1"
           quantity := 3
           status := "pending"
           type := "individual"
           total_price := sampleMaterial.price * 3
           created_at := 50 }] :=
  placeIndividualOrder_inserts_single_row [sampleMaterial] "v1" "m1" 3 []
    "o1" "pending" 50 sampleMaterial (by decide)

/-- C8: every group order in the vendor dashboard's fetched list has
status `open` and expires strictly later than the fetch time. -/
theorem fetched_group_orders_open_unexpired :
    ∀ (db : List GroupOrder) (now : ℚ) (go : GroupOrder),
      go ∈ fetchGroupOrders db now →
      go.status = "open" ∧ now < go.expires_at := by
  intro db now go hmem
  rw [fetchGroupOrders, List.mem_filter] at hmem
  obtain ⟨-, hpred⟩ := hmem
  rw [Bool.and_eq_true, beq_iff_eq, decide_eq_true_iff] at hpred
  exact hpred

/-- C8 witness: `sampleGroupOrder` (status `open`, expiring at
`604800000`) is fetched at time 0 and is indeed open and unexpired. -/
theorem fetched_group_orders_witness :
    sampleGroupOrder.status = "open" ∧ (0 : ℚ) < sampleGroupOrder.expires_at :=
  fetched_group_orders_open_unexpired [sampleGroupOrder] 0 sampleGroupOrder
    (by
      rw [fetchGroupOrders, List.mem_filter]
      refine ⟨List.mem_singleton.mpr rfl, ?_⟩
      rw [Bool.and_eq_true, beq_iff_eq, decide_eq_true_iff]
      refine ⟨rfl, ?_⟩
      norm_num [sampleGroupOrder, createGroupOrderRow, initialGroupOrderForm,
        msPerDay])

/-- C6: the materials and the incoming orders fetched on the supplier
dashboard are exactly the rows whose `supplier_id` equals the logged-in
supplier's user id: nothing owned by another supplier is returned, and no
owned row is omitted (`fetchOrders` additionally sorts by `created_at`
descending, which does not change the set of rows). -/
theorem supplier_fetch_rows_exact :
    ∀ (mats : List Material) (ords : List Order) (uid : String),
      (∀ m : Material, m ∈ fetchSupplierMaterials mats uid
          ↔ m ∈ mats ∧ m.supplier_id = uid)
        ∧ (∀ o : Order, o ∈ fetchSupplierOrders ords uid
            ↔ o ∈ ords ∧ o.supplier_id = uid) := by
  intro mats ords uid
  constructor
  · intro m
    simp [fetchSupplierMaterials, List.mem_filter]
  · intro o
    simp [fetchSupplierOrders, List.mem_mergeSort, List.mem_filter]

/-- C9: the status transitions the supplier dashboard can initiate are
exactly pending to confirmed, pending to cancelled, and confirmed to
delivered; for an order already delivered or cancelled the dashboard
offers no action, so it never initiates a transition out of those
states. -/
theorem supplier_order_status_transitions :
    (∀ a b : String, b ∈ availableStatusActions a
        ↔ ((a = "pending" ∧ (b = "confirmed" ∨ b = "cancelled"))
            ∨ (a = "confirmed" ∧ b = "delivered")))
      ∧ (∀ (db : List Order) (orderId s : String) (o : Order),
          db.find? (fun x => x.id == orderId) = some o →
          o.status = "delivered" ∨ o.status = "cancelled" →
          supplierDashboardUpdateOrderStatus db orderId s = db) := by
  constructor
  · intro a b
    unfold availableStatusActions
    by_cases hp : a = "pending"
    · subst hp
      simp
    · by_cases hcf : a = "confirmed"
      · subst hcf
        simp
      · simp [hp, hcf]
  · intro db orderId s o hfind hstat
    obtain h | h := hstat <;>
      simp [supplierDashboardUpdateOrderStatus, hfind, availableStatusActions, h]

/-- C9 witness: on a table holding one delivered order, a dashboard-side
status update attempt leaves the table unchanged. -/
theorem supplier_order_status_transitions_witness :
    supplierDashboardUpdateOrderStatus [sampleDeliveredOrder] "o1" "pending"
      = [sampleDeliveredOrder] :=
  supplier_order_status_transitions.2 [sampleDeliveredOrder] "o1" "pending"
    sampleDeliveredOrder (by decide) (Or.inl rfl)

/-- C7 counterexample: over the same fetched materials (and the same,
unused, price history), the volatility computation returns 0% volatility
and 1 price change with one `Math.random` stream but 10% volatility and 6
price changes with another: the figures are not a function of the fetched
data. -/
theorem volatility_not_function_of_fetched_data :
    (calculateVolatility [sampleMaterial] (fun _ => 0)).map
        MaterialVolatility.volatility = [0]
      ∧ (calculateVolatility [sampleMaterial] (fun _ => 1 / 2)).map
          MaterialVolatility.volatility = [10]
      ∧ calculateVolatility [sampleMaterial] (fun _ => 0)
          ≠ calculateVolatility [sampleMaterial] (fun _ => 1 / 2) := by
  have h0 : calculateVolatility [sampleMaterial] (fun _ => 0)
      = [{ material_name := "Turmeric", volatility := 0, avg_price := 100,
           price_changes := 1 }] := by
    simp [calculateVolatility, List.enum, sampleMaterial, roundTo2, List.mergeSort]
    norm_num
  have hh : calculateVolatility [sampleMaterial] (fun _ => 1 / 2)
      = [{ material_name := "Turmeric", volatility := 10, avg_price := 100,
           price_changes := 6 }] := by
    simp [calculateVolatility, List.enum, sampleMaterial, roundTo2, List.mergeSort]
    norm_num
  refine ⟨by rw [h0]; rfl, by rw [hh]; rfl, ?_⟩
  rw [h0, hh]
  intro hcontra
  have : (0 : ℚ) = 10 := congrArg MaterialVolatility.volatility
    (List.head_eq_of_cons_eq hcontra)
  norm_num at this

/-- C7 (amended): only the material names and average prices in the
Analytics volatility figures are a function of the fetched materials;
every entry's name and average price come from some fetched material,
while the volatility percentage and price-change count are derived from
fresh random draws. -/
theorem volatility_names_and_prices_from_materials :
    ∀ (mats : List Material) (rnd : ℕ → ℚ) (v : MaterialVolatility),
      v ∈ calculateVolatility mats rnd →
      ∃ m, m ∈ mats ∧ v.material_name = m.name ∧ v.avg_price = m.price := by
  intro mats rnd v hv
  unfold calculateVolatility at hv
  have hv1 := List.mem_of_mem_take hv
  rw [List.mem_mergeSort, List.mem_map] at hv1
  obtain ⟨p, hp, rfl⟩ := hv1
  exact ⟨p.2, List.snd_mem_of_mem_enumFrom hp, rfl, rfl⟩

/-- C7 witness: the single entry computed for `sampleMaterial` under the
all-zero random stream carries `sampleMaterial`'s name and price. -/
theorem volatility_names_and_prices_witness :
    ∃ m, m ∈ [sampleMaterial]
      ∧ ({ material_name := "Turmeric", volatility := 0, avg_price := 100,
           price_changes := 1 } : MaterialVolatility).material_name = m.name
      ∧ ({ material_name := "Turmeric", volatility := 0, avg_price := 100,
           price_changes := 1 } : MaterialVolatility).avg_price = m.price :=
  volatility_names_and_prices_from_materials [sampleMaterial] (fun _ => 0) _
    (by
      have h0 : calculateVolatility [sampleMaterial] (fun _ => 0)
          = [{ material_name := "Turmeric", volatility := 0, avg_price := 100,
               price_changes := 1 }] := by
        simp [calculateVolatility, List.enum, sampleMaterial, roundTo2,
          List.mergeSort]
        norm_num
      rw [h0]
      exact List.mem_singleton.mpr rfl)

/-- `joinUpdate` never changes a row's id. -/
theorem joinUpdate_id (goId : String) (ps : List String) (t : ℚ)
    (r : GroupOrder) : (joinUpdate goId ps t r).id = r.id := by
  unfold joinUpdate
  split <;> rfl

/-- `joinUpdate` never changes a row's status. -/
theorem joinUpdate_status (goId : String) (ps : List String) (t : ℚ)
    (r : GroupOrder) : (joinUpdate goId ps t r).status = r.status := by
  unfold joinUpdate
  split <;> rfl

/-- `joinUpdate` never changes a row's expiry. -/
theorem joinUpdate_expires_at (goId : String) (ps : List String) (t : ℚ)
    (r : GroupOrder) : (joinUpdate goId ps t r).expires_at = r.expires_at := by
  unfold joinUpdate
  split <;> rfl

/-- `joinUpdate` writes absolute values, so applying it twice equals
applying it once. -/
theorem joinUpdate_idem (goId : String) (ps : List String) (t : ℚ)
    (r : GroupOrder) :
    joinUpdate goId ps t (joinUpdate goId ps t r) = joinUpdate goId ps t r := by
  unfold joinUpdate
  by_cases h : (r.id == goId) = true <;> simp [h]

/-- Fetching open unexpired orders commutes with the join update, which
changes neither status nor expiry. -/
theorem fetch_map_joinUpdate (l : List GroupOrder) (now : ℚ) (goId : String)
    (ps : List String) (t : ℚ) :
    fetchGroupOrders (l.map (joinUpdate goId ps t)) now
      = (fetchGroupOrders l now).map (joinUpdate goId ps t) := by
  unfold fetchGroupOrders
  induction l with
  | nil => rfl
  | cons x xs ih =>
    simp only [List.map_cons, List.filter_cons, joinUpdate_status,
      joinUpdate_expires_at]
    by_cases h : (x.status == "open" && decide (now < x.expires_at)) = true
    · simp [h, ih]
    · simp [h, ih]

/-- Looking the joined id up commutes with the join update, which does not
change ids. -/
theorem find?_map_joinUpdate (l : List GroupOrder) (goId : String)
    (ps : List String) (t : ℚ) :
    (l.map (joinUpdate goId ps t)).find? (fun g => g.id == goId)
      = (l.find? (fun g => g.id == goId)).map (joinUpdate goId ps t) := by
  rw [List.find?_map]
  have hpred : ((fun g : GroupOrder => g.id == goId) ∘ joinUpdate goId ps t)
      = fun g : GroupOrder => g.id == goId := by
    funext a
    simp [Function.comp, joinUpdate_id]
  rw [hpred]

/-- The join is a no-op when the group order is not in the snapshot. -/
theorem joinFS_of_none (snapshot : List GroupOrder) (db : VendorDb)
    (goId uid : String) (q : ℚ)
    (hf : snapshot.find? (fun g => g.id == goId) = none) :
    joinGroupOrderFromSnapshot snapshot db goId uid q = db := by
  unfold joinGroupOrderFromSnapshot
  rw [hf]

/-- The join is a no-op when the vendor is already a participant. -/
theorem joinFS_of_contains (snapshot : List GroupOrder) (db : VendorDb)
    (goId uid : String) (q : ℚ) (go : GroupOrder)
    (hf : snapshot.find? (fun g => g.id == goId) = some go)
    (hc : go.participants.contains uid = true) :
    joinGroupOrderFromSnapshot snapshot db goId uid q = db := by
  unfold joinGroupOrderFromSnapshot
  rw [hf]
  exact if_pos hc

/-- When the group order is found and the vendor is new, the join inserts
a participant row and maps the join update over the group orders. -/
theorem joinFS_of_not_contains (snapshot : List GroupOrder) (db : VendorDb)
    (goId uid : String) (q : ℚ) (go : GroupOrder)
    (hf : snapshot.find? (fun g => g.id == goId) = some go)
    (hc : go.participants.contains uid = false) :
    joinGroupOrderFromSnapshot snapshot db goId uid q
      = { group_orders := db.group_orders.map
            (joinUpdate goId (go.participants ++ [uid]) (go.total_quantity + q))
          group_order_participants := db.group_order_participants ++
            [{ group_order_id := goId, vendor_id := uid, quantity := q }] } := by
  unfold joinGroupOrderFromSnapshot
  rw [hf]
  exact if_neg (by simpa using hc)

/-- Joining the same group order twice in sequence equals joining it once:
the second run finds the vendor in `participants` and returns without
writing. -/
theorem joinGroupOrder_idem (db : VendorDb) (now : ℚ) (goId uid : String)
    (q : ℚ) :
    joinGroupOrder (joinGroupOrder db now goId uid q) now goId uid q
      = joinGroupOrder db now goId uid q := by
  cases hf : (fetchGroupOrders db.group_orders now).find? (fun g => g.id == goId) with
  | none =>
    have e : joinGroupOrder db now goId uid q = db :=
      joinFS_of_none _ _ _ _ _ hf
    rw [e]
    exact e
  | some go =>
    cases hc : go.participants.contains uid with
    | true =>
      have e : joinGroupOrder db now goId uid q = db :=
        joinFS_of_contains _ _ _ _ _ _ hf hc
      rw [e]
      exact e
    | false =>
      have e : joinGroupOrder db now goId uid q
          = { group_orders := db.group_orders.map
                (joinUpdate goId (go.participants ++ [uid]) (go.total_quantity + q))
              group_order_participants := db.group_order_participants ++
                [{ group_order_id := goId, vendor_id := uid, quantity := q }] } :=
        joinFS_of_not_contains _ _ _ _ _ _ hf hc
      rw [e]
      have hgoid : (go.id == goId) = true := by
        have h2 := List.find?_some hf
        simpa using h2
      have hupd : joinUpdate goId (go.participants ++ [uid])
            (go.total_quantity + q) go
          = { go with participants := go.participants ++ [uid]
                      total_quantity := go.total_quantity + q } := by
        unfold joinUpdate
        exact if_pos hgoid
      have hfind2 : (fetchGroupOrders (db.group_orders.map
            (joinUpdate goId (go.participants ++ [uid]) (go.total_quantity + q)))
            now).find? (fun g => g.id == goId)
          = some (joinUpdate goId (go.participants ++ [uid])
              (go.total_quantity + q) go) := by
        rw [fetch_map_joinUpdate, find?_map_joinUpdate, hf]
        rfl
      have hcont2 : (joinUpdate goId (go.participants ++ [uid])
            (go.total_quantity + q) go).participants.contains uid = true := by
        rw [hupd]
        simp
      exact joinFS_of_contains _ _ _ _ _ _ hfind2 hcont2

/-- Even from a stale snapshot (for example a double click before the
list refreshes), the second identical join overwrites the row with the
same absolute values, leaving the `group_orders` table as after one
join. -/
theorem joinFS_stale_group_orders (snapshot : List GroupOrder)
    (db : VendorDb) (goId uid : String) (q : ℚ) :
    (joinGroupOrderFromSnapshot snapshot
        (joinGroupOrderFromSnapshot snapshot db goId uid q) goId uid q).group_orders
      = (joinGroupOrderFromSnapshot snapshot db goId uid q).group_orders := by
  cases hf : snapshot.find? (fun g => g.id == goId) with
  | none =>
    have e : joinGroupOrderFromSnapshot snapshot db goId uid q = db :=
      joinFS_of_none _ _ _ _ _ hf
    rw [e, e]
  | some go =>
    cases hc : go.participants.contains uid with
    | true =>
      have e : joinGroupOrderFromSnapshot snapshot db goId uid q = db :=
        joinFS_of_contains _ _ _ _ _ _ hf hc
      rw [e, e]
    | false =>
      have e := joinFS_of_not_contains snapshot db goId uid q go hf hc
      rw [e]
      have e2 := joinFS_of_not_contains snapshot
        { group_orders := db.group_orders.map
            (joinUpdate goId (go.participants ++ [uid]) (go.total_quantity + q))
          group_order_participants := db.group_order_participants ++
            [{ group_order_id := goId, vendor_id := uid, quantity := q }] }
        goId uid q go hf hc
      rw [e2]
      show (db.group_orders.map
            (joinUpdate goId (go.participants ++ [uid]) (go.total_quantity + q))).map
            (joinUpdate goId (go.participants ++ [uid]) (go.total_quantity + q))
          = db.group_orders.map
            (joinUpdate goId (go.participants ++ [uid]) (go.total_quantity + q))
      rw [List.map_map]
      exact List.map_congr_left (fun a _ => joinUpdate_idem _ _ _ a)

/-- C3 counterexample (negation of the claim): for every group-order
state, vendor and quantity, the participants lists and total quantities
after joining twice in sequence equal those after joining once — both
when the second join re-reads the fresh state and when it reuses a stale
snapshot. -/
theorem join_twice_participants_totals_unchanged :
    (∀ (db : VendorDb) (now : ℚ) (goId uid : String) (q : ℚ),
        (joinGroupOrder (joinGroupOrder db now goId uid q) now goId uid
            q).group_orders.map (fun r => (r.participants, r.total_quantity))
          = (joinGroupOrder db now goId uid q).group_orders.map
              (fun r => (r.participants, r.total_quantity)))
      ∧ (∀ (snapshot : List GroupOrder) (db : VendorDb) (goId uid : String)
          (q : ℚ),
          (joinGroupOrderFromSnapshot snapshot
              (joinGroupOrderFromSnapshot snapshot db goId uid q) goId uid
              q).group_orders.map (fun r => (r.participants, r.total_quantity))
            = (joinGroupOrderFromSnapshot snapshot db goId uid
                q).group_orders.map
                (fun r => (r.participants, r.total_quantity))) := by
  constructor
  · intro db now goId uid q
    rw [joinGroupOrder_idem]
  · intro snapshot db goId uid q
    rw [joinFS_stale_group_orders]

/-- C3 (amended): the already-participant check makes the join flow
idempotent. Joining the same group order twice in sequence produces the
same final state as joining once, and even a repeated join from a stale
snapshot leaves the `group_orders` table unchanged after the first
write. -/
theorem joinGroupOrder_idempotent :
    (∀ (db : VendorDb) (now : ℚ) (goId uid : String) (q : ℚ),
        joinGroupOrder (joinGroupOrder db now goId uid q) now goId uid q
          = joinGroupOrder db now goId uid q)
      ∧ (∀ (snapshot : List GroupOrder) (db : VendorDb) (goId uid : String)
          (q : ℚ),
          (joinGroupOrderFromSnapshot snapshot
              (joinGroupOrderFromSnapshot snapshot db goId uid q) goId uid
              q).group_orders
            = (joinGroupOrderFromSnapshot snapshot db goId uid q).group_orders) :=
  ⟨joinGroupOrder_idem, joinFS_stale_group_orders⟩

/-- C2: joining an open group order as a vendor not yet listed updates
exactly two fields of exactly that row: `total_quantity` grows by the
joined quantity and the vendor's id is appended to the end of
`participants`, while `material_id`, `min_quantity`, `current_price`,
`expires_at` and `status` keep their values (the result row is a record
update of the old row in just those two fields) and every other
`group_orders` row is returned unchanged. -/
theorem joinGroupOrder_frame :
    ∀ (db : VendorDb) (now : ℚ) (goId uid : String) (q : ℚ)
      (go : GroupOrder),
      (fetchGroupOrders db.group_orders now).find? (fun g => g.id == goId)
          = some go →
      go.participants.contains uid = false →
      (db.group_orders.map GroupOrder.id).Nodup →
      (joinGroupOrder db now goId uid q).group_orders.length
          = db.group_orders.length
        ∧ ∀ (i : ℕ) (r : GroupOrder), db.group_orders[i]? = some r →
            (r.id ≠ goId →
              (joinGroupOrder db now goId uid q).group_orders[i]? = some r)
              ∧ (r.id = goId →
                  (joinGroupOrder db now goId uid q).group_orders[i]?
                    = some { r with
                             participants := r.participants ++ [uid]
                             total_quantity := r.total_quantity + q }) := by
  intro db now goId uid q go hf hc hnodup
  have e : joinGroupOrder db now goId uid q
      = { group_orders := db.group_orders.map
            (joinUpdate goId (go.participants ++ [uid]) (go.total_quantity + q))
          group_order_participants := db.group_order_participants ++
            [{ group_order_id := goId, vendor_id := uid, quantity := q }] } :=
    joinFS_of_not_contains _ _ _ _ _ _ hf hc
  have hg : (joinGroupOrder db now goId uid q).group_orders
      = db.group_orders.map
          (joinUpdate goId (go.participants ++ [uid]) (go.total_quantity + q)) := by
    rw [e]
  constructor
  · rw [hg, List.length_map]
  · intro i r hir
    have hmap : (db.group_orders.map
          (joinUpdate goId (go.participants ++ [uid])
            (go.total_quantity + q)))[i]?
        = some (joinUpdate goId (go.participants ++ [uid])
            (go.total_quantity + q) r) := by
      rw [List.getElem?_map, hir]
      rfl
    constructor
    · intro hne
      rw [hg, hmap]
      have : joinUpdate goId (go.participants ++ [uid])
          (go.total_quantity + q) r = r := by
        unfold joinUpdate
        exact if_neg (by simp [hne])
      rw [this]
    · intro heq
      have hgo_mem : go ∈ db.group_orders := by
        have h1 := List.mem_of_find?_eq_some hf
        rw [fetchGroupOrders] at h1
        exact (List.mem_filter.mp h1).1
      have hr_mem : r ∈ db.group_orders := List.getElem?_mem hir
      have hgoid : (go.id == goId) = true := by
        simpa using List.find?_some hf
      have hgoid2 : go.id = goId := by simpa using hgoid
      have hreq : r = go :=
        List.inj_on_of_nodup_map hnodup hr_mem hgo_mem (by rw [heq, hgoid2])
      subst hreq
      rw [hg, hmap]
      have : joinUpdate goId (r.participants ++ [uid])
          (r.total_quantity + q) r
          = { r with
              participants := r.participants ++ [uid]
              total_quantity := r.total_quantity + q } := by
        unfold joinUpdate
        exact if_pos (by simp [heq])
      rw [this]

/-- C2 witness: joining `openGroupOrder` (participants `["v1"]`, total 3)
as vendor `v2` with quantity 1 turns the single row into one with
participants `["v1", "v2"]` and total 4. -/
theorem joinGroupOrder_frame_witness :
    (joinGroupOrder
        { group_orders := [openGroupOrder], group_order_participants := [] }
        0 "g2" "v2" 1).group_orders[0]?
      = some { openGroupOrder with
               participants := openGroupOrder.participants ++ ["v2"]
               total_quantity := openGroupOrder.total_quantity + 1 } :=
  ((joinGroupOrder_frame
      { group_orders := [openGroupOrder], group_order_participants := [] }
      0 "g2" "v2" 1 openGroupOrder (by decide) (by decide) (by decide)).2
    0 openGroupOrder rfl).2 rfl

/-- C10 counterexample: adding quantity 0 to an empty cart inserts one
row for the pair (vendor `v1`, material `m1`); a second add for the same
pair then treats the zero-quantity row as absent (`existingItem &&
existingItem.quantity` is falsy) and inserts a second row instead of
increasing the existing row's quantity, so the pair ends up with two cart
rows. -/
theorem addToCart_duplicate_pair_rows :
    (cartAfterFirstAdd.filter
        (fun r => r.vendor_id == "v1" && r.material_id == "m1")).length = 1
      ∧ (cartAfterSecondAdd.filter
          (fun r => r.vendor_id == "v1" && r.material_id == "m1")).length = 2
      ∧ cartAfterSecondAdd.length = cartAfterFirstAdd.length + 1 := by
  refine ⟨by decide, by decide, by decide⟩

/-- C10 (amended): `addToCart` upserts per (vendor, material) pair
provided the existing row's quantity is nonzero: with no existing row it
inserts exactly one new row with the given quantity, and with exactly one
existing nonzero-quantity row it increases that row's quantity by the
added amount and inserts nothing.  (A zero-quantity existing row, or an
ambiguous multi-row state, is treated as absent and a fresh row is
inserted.) -/
theorem addToCart_upsert :
    ∀ (db : List CartItem) (uid mid : String) (q : ℚ) (newId : String)
      (r : CartItem),
      (db.filter (fun x => x.vendor_id == uid && x.material_id == mid) = [] →
        addToCart db uid mid q newId
          = db ++ [{ id := newId, vendor_id := uid, material_id := mid,
                     quantity := q }])
        ∧ (db.filter (fun x => x.vendor_id == uid && x.material_id == mid)
              = [r] →
            r.quantity ≠ 0 →
            addToCart db uid mid q newId
                = db.map (fun s =>
                    if s.id == r.id then { s with quantity := r.quantity + q }
                    else s)
              ∧ (addToCart db uid mid q newId).length = db.length) := by
  intro db uid mid q newId r
  constructor
  · intro h
    unfold addToCart
    rw [h]
  · intro h hq
    have e : addToCart db uid mid q newId
        = db.map (fun s =>
            if s.id == r.id then { s with quantity := r.quantity + q }
            else s) := by
      unfold addToCart
      rw [h]
      exact if_neg hq
    exact ⟨e, by rw [e, List.length_map]⟩

/-- C10 witness: on an empty cart the add inserts the new row, and on a
cart holding one row of quantity 2 for the pair, adding 3 updates that
row in place without changing the number of rows. -/
theorem addToCart_upsert_witness :
    (addToCart [] "v1" "m1" 3 "c9"
        = [] ++ [{ id := "c9", vendor_id := "v1", material_id := "m1",
                   quantity := 3 }])
      ∧ (addToCart [sampleCartItem] "v1" "m1" 3 "c9"
            = [sampleCartItem].map (fun s =>
                if s.id == sampleCartItem.id then
                  { s with quantity := sampleCartItem.quantity + 3 }
                else s)
          ∧ (addToCart [sampleCartItem] "v1" "m1" 3 "c9").length
              = [sampleCartItem].length) :=
  ⟨(addToCart_upsert [] "v1" "m1" 3 "c9" sampleCartItem).1 (by decide),
   (addToCart_upsert [sampleCartItem] "v1" "m1" 3 "c9" sampleCartItem).2
     (by decide) (by decide)⟩

end SpiceSourceHub
